import Mathlib

/-!
Verification of the periodic motor-control interrupt pipeline in
`Src/bldc.c` (hoverboard-firmware-hack-FOC).  The C code is shallowly
embedded: machine integers become `Int`/`Nat` with explicit truncation
where C would overflow or convert, C's truncating `%` and `/` become
`Int.tmod`/`Int.tdiv`, and the one interrupt handler
`DMA1_Channel1_IRQHandler` becomes a pure state-transition function
`tick` over an explicit `State` record.  The external vector-control
algorithm (`BLDC_controller_step`) is out of scope per the spec and is
modelled as an opaque step function parameter.
-/

namespace Bldc

/-- Conversion of a C `int` value to `int16_t` (two's-complement wrap
into the range -32768..32767), as performed by the casts in `bldc.c`. -/
def toInt16 (x : Int) : Int := (x + 32768).emod 65536 - 32768

/-- Conversion of a C `int` value to `uint16_t` (wrap modulo 2^16), as
performed by the `(uint16_t)` casts on the duty compare writes. -/
def toUInt16 (x : Int) : Int := x.emod 65536

/-- Modelled from the spec: the `ABS` macro (absolute value) from
`defines.h`, which is not under src/. -/
def ABS (a : Int) : Int := if a < 0 then -a else a

/-- Modelled from the spec: the `CLAMP(x, lo, hi)` macro from `util.h`
(not under src/), clamping `x` into the inclusive window `[lo, hi]`
as `MIN(MAX(x, lo), hi)`. -/
def CLAMP (x lo hi : Int) : Int := min (max x lo) hi

/-- `static const uint16_t pwm_res = 64000000 / 2 / PWM_FREQ; // = 2000`
(bldc.c line 71; the source comment pins the value to 2000). -/
def pwm_res : Int := 2000

/-- Modelled from the spec: the selector value of the vector-control
(FOC) mode for `z_ctrlTypSel`, declared in the controller header which
is not under src/. -/
def FOC_CTRL : Nat := 2

/-- Modelled from the spec: the build-time battery-filter coefficient
`BAT_FILT_COEF` from `config.h` (not under src/); its exact value is
irrelevant to every claim. -/
def BAT_FILT_COEF : Int := 655

/-- Modelled from the spec: `filtLowPass32` from `util.c` (not under
src/), a single-pole fixed-point low-pass filter with 16 fractional
bits: y is replaced by y + coef*(u*2^16 - y)/2^16. -/
def filtLowPass32 (u coef y : Int) : Int := y + (coef * (u * 65536 - y)).tdiv 65536

/-- Modelled from the spec: the fixed 8-entry hall-position table
`rtConstP.vec_hallToPos_Value` (controller data file, not under src/);
the source comment at bldc.c line 221 documents it as 0, 2, 0, 1, 4, 3, 5, 0. -/
def vec_hallToPos_Value : List Nat := [0, 2, 0, 1, 4, 3, 5, 0]

/-- Table lookup `rtConstP.vec_hallToPos_Value[code]`. -/
def vec_hallToPos (code : Nat) : Nat := vec_hallToPos_Value.getD code 0

/-- `int8_t enc_vals_table[6] = { 0, -1, -2, 0, 2, 1 };` (bldc.c line 90). -/
def enc_vals_table : List Int := [0, -1, -2, 0, 2, 1]

/-- `uint16_t clamp_module_max(int16_t value, uint16_t max)` from
bldc.c lines 92-94: `((value % max) + max) % max` with C's truncating
`%` on promoted `int` operands. -/
def clamp_module_max (value mx : Int) : Int := (value.tmod mx + mx).tmod mx

/-- `int8_t calc_encoder_ticks(uint8_t enc_val_previous, uint8_t enc_val_current)`
from bldc.c lines 96-98: table lookup at `clamp_module_max(prev - cur, 6)`. -/
def calc_encoder_ticks (enc_val_previous enc_val_current : Nat) : Int :=
  enc_vals_table.getD (clamp_module_max ((enc_val_previous : Int) - enc_val_current) 6).toNat 0

/-- The raw 3-bit hall code `(hall_u << 2) + (hall_v << 1) + hall_w`. -/
def hallCode (u v w : Bool) : Nat := (cond u 4 0) + (cond v 2 0) + (cond w 1 0)

/-- The raw ADC sample buffer `adc_buffer` (six current channels and
the battery channel), refreshed by hardware before each tick. -/
structure AdcBuf where
  rlA : Int
  rlB : Int
  rrB : Int
  rrC : Int
  dcl : Int
  dcr : Int
  batt1 : Int
  deriving DecidableEq

/-- The external input record `ExtU` of the vector-control algorithm. -/
structure ExtU where
  b_motEna : Bool
  z_ctrlModReq : Nat
  r_inpTgt : Int
  b_hallA : Bool
  b_hallB : Bool
  b_hallC : Bool
  i_phaAB : Int
  i_phaBC : Int
  i_DCLink : Int
  deriving DecidableEq

/-- The external output record `ExtY` of the vector-control algorithm. -/
structure ExtY where
  DC_phaA : Int
  DC_phaB : Int
  DC_phaC : Int
  z_errCode : Nat
  n_mot : Int
  a_elecAngle : Int
  deriving DecidableEq

/-- One motor timer: the master-output-enable bit of `BDTR` and the
three phase compare registers. -/
structure TimReg where
  moe : Bool
  cmpU : Int
  cmpV : Int
  cmpW : Int
  deriving DecidableEq

/-- The per-tick hardware inputs: the refreshed ADC buffer and the six
hall sensor values (after the active-low `!` negation in the code). -/
structure TickIn where
  adc : AdcBuf
  hall_ul : Bool
  hall_vl : Bool
  hall_wl : Bool
  hall_ur : Bool
  hall_vr : Bool
  hall_wr : Bool
  deriving DecidableEq

/-- Instrumentation events recording the order of the safety-relevant
actions inside one tick: interlock (MOE) updates, controller steps and
duty compare-register writes. -/
inductive Ev where
  | interlock (left : Bool) (armed : Bool)
  | ctrlStep (left : Bool)
  | dutyWrite (left : Bool) (phase : Nat)
  deriving DecidableEq

/-- All mutable state read or written by `DMA1_Channel1_IRQHandler`:
the file-scope and function-static variables of bldc.c, the timer
registers, the buzzer GPIO line, and the controller I/O records.  `DW`
is the opaque internal state of the external vector-control algorithm. -/
structure State (DW : Type) where
  pwm_margin : Int
  curDC_max : Int
  ctrlModReq : Nat
  curL_phaA : Int
  curL_phaB : Int
  curL_DC : Int
  curR_phaB : Int
  curR_phaC : Int
  curR_DC : Int
  pwml : Int
  pwmr : Int
  buzzerFreq : Nat
  buzzerPattern : Nat
  buzzerCount : Nat
  buzzerTimer : Nat
  buzzerPrev : Bool
  buzzerIdx : Nat
  buzzerPin : Bool
  enable : Nat
  enableFin : Bool
  offsetcount : Nat
  offsetrlA : Int
  offsetrlB : Int
  offsetrrB : Int
  offsetrrC : Int
  offsetdcl : Int
  offsetdcr : Int
  batVoltage : Int
  batVoltageFixdt : Int
  wheel_left_ticks : Nat
  wheel_right_ticks : Nat
  enc_val_previous_left : Nat
  enc_val_previous_right : Nat
  overrunFlag : Bool
  z_ctrlTypSel : Nat
  leftTim : TimReg
  rightTim : TimReg
  rtU_Left : ExtU
  rtU_Right : ExtU
  rtY_Left : ExtY
  rtY_Right : ExtY
  dwLeft : DW
  dwRight : DW

/-- The calibration branch of the handler (bldc.c lines 109-118):
exponential averaging of the six ADC offsets and the early return. -/
def calibStep {DW : Type} (s : State DW) (i : TickIn) : State DW :=
  { s with
      offsetcount := s.offsetcount + 1,
      offsetrlA := toInt16 ((i.adc.rlA + s.offsetrlA).tdiv 2),
      offsetrlB := toInt16 ((i.adc.rlB + s.offsetrlB).tdiv 2),
      offsetrrB := toInt16 ((i.adc.rrB + s.offsetrrB).tdiv 2),
      offsetrrC := toInt16 ((i.adc.rrC + s.offsetrrC).tdiv 2),
      offsetdcl := toInt16 ((i.adc.dcl + s.offsetdcl).tdiv 2),
      offsetdcr := toInt16 ((i.adc.dcr + s.offsetdcr).tdiv 2) }

/-- The part of the handler between the calibration branch and the
overrun check (bldc.c lines 120-171): decimated battery filter, current
acquisition, the two interlock (MOE) updates, the buzzer block and the
pwm_margin update.  It runs on every tick that is past calibration,
even when the overrun flag is set. -/
def housekeeping {DW : Type} (s : State DW) (i : TickIn) : State DW :=
  let batFix := if s.buzzerTimer % 1000 = 0 then
      filtLowPass32 i.adc.batt1 BAT_FILT_COEF s.batVoltageFixdt else s.batVoltageFixdt
  let batV := if s.buzzerTimer % 1000 = 0 then toInt16 (batFix.fdiv 65536) else s.batVoltage
  let curL_phaA := toInt16 (s.offsetrlA - i.adc.rlA)
  let curL_phaB := toInt16 (s.offsetrlB - i.adc.rlB)
  let curL_DC := toInt16 (s.offsetdcl - i.adc.dcl)
  let curR_phaB := toInt16 (s.offsetrrB - i.adc.rrB)
  let curR_phaC := toInt16 (s.offsetrrC - i.adc.rrC)
  let curR_DC := toInt16 (s.offsetdcr - i.adc.dcr)
  let moeL : Bool := !(decide (ABS curL_DC > s.curDC_max) || decide (s.enable = 0))
  let moeR : Bool := !(decide (ABS curR_DC > s.curDC_max) || decide (s.enable = 0))
  let buzzerTimer := (s.buzzerTimer + 1) % 4294967296
  let gate : Bool := (s.buzzerFreq != 0) && ((buzzerTimer / 5000) % (s.buzzerPattern + 1) == 0)
  let buzzerIdx1 := if gate && !s.buzzerPrev then
      (if (s.buzzerIdx + 1) % 256 > s.buzzerCount + 2 then 1 else (s.buzzerIdx + 1) % 256)
    else s.buzzerIdx
  let buzzerPrev1 := if gate then true else if s.buzzerPrev then false else s.buzzerPrev
  let buzzerPin1 := if gate then
      (if buzzerTimer % s.buzzerFreq = 0 ∧ (buzzerIdx1 ≤ s.buzzerCount ∨ s.buzzerCount = 0)
        then !s.buzzerPin else s.buzzerPin)
    else if s.buzzerPrev then false else s.buzzerPin
  let margin : Int := if s.z_ctrlTypSel = FOC_CTRL then 110 else 0
  { s with
      batVoltageFixdt := batFix, batVoltage := batV,
      curL_phaA := curL_phaA, curL_phaB := curL_phaB, curL_DC := curL_DC,
      curR_phaB := curR_phaB, curR_phaC := curR_phaC, curR_DC := curR_DC,
      leftTim := { s.leftTim with moe := moeL },
      rightTim := { s.rightTim with moe := moeR },
      buzzerTimer := buzzerTimer, buzzerPrev := buzzerPrev1,
      buzzerIdx := buzzerIdx1, buzzerPin := buzzerPin1,
      pwm_margin := margin }

/-- The motor-control section of the handler (bldc.c lines 173-281),
executed only when the overrun check admits the tick.  `h` is the state
after `housekeeping`.  For each motor: build the controller input
record, step the controller, update the odometry, and write the
re-centered clamped duty values; finally the overrun flag is cleared. -/
def motorSection {DW : Type} (step : DW → ExtU → DW × ExtY) (h : State DW) (i : TickIn) :
    State DW :=
  let enableFin : Bool :=
    decide (h.enable ≠ 0) && decide (h.rtY_Left.z_errCode = 0) &&
      decide (h.rtY_Right.z_errCode = 0)
  let uL : ExtU := { b_motEna := enableFin, z_ctrlModReq := h.ctrlModReq,
                     r_inpTgt := h.pwml,
                     b_hallA := i.hall_ul, b_hallB := i.hall_vl, b_hallC := i.hall_wl,
                     i_phaAB := h.curL_phaA, i_phaBC := h.curL_phaB, i_DCLink := h.curL_DC }
  let stL := step h.dwLeft uL
  let yL := stL.2
  let encoder_left := vec_hallToPos (hallCode i.hall_ul i.hall_vl i.hall_wl)
  let wlt := (clamp_module_max
      (toInt16 ((h.wheel_left_ticks : Int) +
        calc_encoder_ticks h.enc_val_previous_left encoder_left)) 9000).toNat
  let cmpLU := toUInt16 (CLAMP (yL.DC_phaA + pwm_res.tdiv 2) h.pwm_margin (pwm_res - h.pwm_margin))
  let cmpLV := toUInt16 (CLAMP (yL.DC_phaB + pwm_res.tdiv 2) h.pwm_margin (pwm_res - h.pwm_margin))
  let cmpLW := toUInt16 (CLAMP (yL.DC_phaC + pwm_res.tdiv 2) h.pwm_margin (pwm_res - h.pwm_margin))
  let uR : ExtU := { b_motEna := enableFin, z_ctrlModReq := h.ctrlModReq,
                     r_inpTgt := h.pwmr,
                     b_hallA := i.hall_ur, b_hallB := i.hall_vr, b_hallC := i.hall_wr,
                     i_phaAB := h.curR_phaB, i_phaBC := h.curR_phaC, i_DCLink := h.curR_DC }
  let stR := step h.dwRight uR
  let yR := stR.2
  let encoder_right := vec_hallToPos (hallCode i.hall_ur i.hall_vr i.hall_wr)
  let wrt := (clamp_module_max
      (toInt16 ((h.wheel_right_ticks : Int) -
        calc_encoder_ticks h.enc_val_previous_right encoder_right)) 9000).toNat
  let cmpRU := toUInt16 (CLAMP (yR.DC_phaA + pwm_res.tdiv 2) h.pwm_margin (pwm_res - h.pwm_margin))
  let cmpRV := toUInt16 (CLAMP (yR.DC_phaB + pwm_res.tdiv 2) h.pwm_margin (pwm_res - h.pwm_margin))
  let cmpRW := toUInt16 (CLAMP (yR.DC_phaC + pwm_res.tdiv 2) h.pwm_margin (pwm_res - h.pwm_margin))
  { h with
      enableFin := enableFin,
      rtU_Left := uL, rtY_Left := yL, dwLeft := stL.1,
      wheel_left_ticks := wlt, enc_val_previous_left := encoder_left,
      leftTim := { moe := h.leftTim.moe, cmpU := cmpLU, cmpV := cmpLV, cmpW := cmpLW },
      rtU_Right := uR, rtY_Right := yR, dwRight := stR.1,
      wheel_right_ticks := wrt, enc_val_previous_right := encoder_right,
      rightTim := { moe := h.rightTim.moe, cmpU := cmpRU, cmpV := cmpRV, cmpW := cmpRW },
      overrunFlag := false }

/-- One execution of `DMA1_Channel1_IRQHandler` (bldc.c lines 103-285),
parameterized by the opaque controller step function; returns the new
state together with the trace of safety-relevant events.  The C control
flow is transcribed branch by branch: the calibration early return,
then `housekeeping` (battery filter, current acquisition, interlock
updates, buzzer, pwm_margin), then the overrun early return, then the
motor-control section. -/
def tickAux {DW : Type} (step : DW → ExtU → DW × ExtY) (s : State DW) (i : TickIn) :
    State DW × List Ev :=
  if s.offsetcount < 2000 then (calibStep s i, [])
  else
    let h := housekeeping s i
    if s.overrunFlag then
      (h, [Ev.interlock true h.leftTim.moe, Ev.interlock false h.rightTim.moe])
    else
      (motorSection step h i,
        [Ev.interlock true h.leftTim.moe, Ev.interlock false h.rightTim.moe,
          Ev.ctrlStep true, Ev.dutyWrite true 0, Ev.dutyWrite true 1, Ev.dutyWrite true 2,
          Ev.ctrlStep false, Ev.dutyWrite false 0, Ev.dutyWrite false 1, Ev.dutyWrite false 2])

/-- The state transition of one tick (the handler's effect on state). -/
def tick {DW : Type} (step : DW → ExtU → DW × ExtY) (s : State DW) (i : TickIn) : State DW :=
  (tickAux step s i).1

/-- The event trace of one tick. -/
def tickTrace {DW : Type} (step : DW → ExtU → DW × ExtY) (s : State DW) (i : TickIn) : List Ev :=
  (tickAux step s i).2

/-- Iterated execution of the handler over a list of per-tick inputs. -/
def run {DW : Type} (step : DW → ExtU → DW × ExtY) (s : State DW) (l : List TickIn) : State DW :=
  l.foldl (tick step) s

/-- Recognizer for interlock-update events. -/
def isInterlockEv : Ev → Bool
  | Ev.interlock _ _ => true
  | _ => false

/-- Recognizer for controller-step and duty-write events (the control
algorithm step and the actuation writes). -/
def isActuationEv : Ev → Bool
  | Ev.ctrlStep _ => true
  | Ev.dutyWrite _ _ => true
  | _ => false

/-- A trivial stand-in controller used to build concrete witness
states: no internal state, fixed duty outputs, no fault. -/
def step0 : Unit → ExtU → Unit × ExtY := fun _ _ =>
  ((), { DC_phaA := 100, DC_phaB := -50, DC_phaC := 3000,
         z_errCode := 0, n_mot := 0, a_elecAngle := 0 })

/-- Zeroed controller input record. -/
def u0 : ExtU := { b_motEna := false, z_ctrlModReq := 0, r_inpTgt := 0,
                   b_hallA := false, b_hallB := false, b_hallC := false,
                   i_phaAB := 0, i_phaBC := 0, i_DCLink := 0 }

/-- Zeroed controller output record. -/
def y0 : ExtY := { DC_phaA := 0, DC_phaB := 0, DC_phaC := 0,
                   z_errCode := 0, n_mot := 0, a_elecAngle := 0 }

/-- Reset timer registers. -/
def tim0 : TimReg := { moe := false, cmpU := 0, cmpV := 0, cmpW := 0 }

/-- Mid-scale ADC samples. -/
def adc0 : AdcBuf := { rlA := 2000, rlB := 2000, rrB := 2000, rrC := 2000,
                       dcl := 2000, dcr := 2000, batt1 := 2000 }

/-- Concrete tick input: mid-scale ADC samples and valid hall code 2
(canonical position 0) on both motors. -/
def in0 : TickIn := { adc := adc0,
                      hall_ul := false, hall_vl := true, hall_wl := false,
                      hall_ur := false, hall_vr := true, hall_wr := false }

/-- Concrete post-calibration baseline state: offsets converged at
2000, calibration finished, motors enabled, FOC mode, current limit
850, no overrun pending. -/
def s0 : State Unit :=
  { pwm_margin := 0, curDC_max := 850, ctrlModReq := 2,
    curL_phaA := 0, curL_phaB := 0, curL_DC := 0,
    curR_phaB := 0, curR_phaC := 0, curR_DC := 0,
    pwml := 0, pwmr := 0,
    buzzerFreq := 0, buzzerPattern := 0, buzzerCount := 0,
    buzzerTimer := 1, buzzerPrev := false, buzzerIdx := 0, buzzerPin := false,
    enable := 1, enableFin := false,
    offsetcount := 2000,
    offsetrlA := 2000, offsetrlB := 2000, offsetrrB := 2000, offsetrrC := 2000,
    offsetdcl := 2000, offsetdcr := 2000,
    batVoltage := 400, batVoltageFixdt := 400 * 65536,
    wheel_left_ticks := 0, wheel_right_ticks := 0,
    enc_val_previous_left := 0, enc_val_previous_right := 0,
    overrunFlag := false, z_ctrlTypSel := 2,
    leftTim := tim0, rightTim := tim0,
    rtU_Left := u0, rtU_Right := u0, rtY_Left := y0, rtY_Right := y0,
    dwLeft := (), dwRight := () }

/-- Input whose left DC-link sample puts the measured current exactly
at the configured limit (2000 - 1150 = 850 = curDC_max). -/
def inEq : TickIn := { in0 with adc := { adc0 with dcl := 1150 } }

/-- Baseline state entered with the overrun flag already set. -/
def sOv : State Unit := { s0 with overrunFlag := true }

/-- Baseline state whose previous left canonical hall code is 1. -/
def sHall : State Unit := { s0 with enc_val_previous_left := 1, wheel_left_ticks := 100 }

/-- Input with an invalid left hall reading (raw code 7). -/
def inHall : TickIn := { in0 with hall_ul := true, hall_vl := true, hall_wl := true }

/-- Baseline state one forward step before the odometry wrap point:
left counter at 8999 with previous canonical code 5 (input `in0` reads
canonical code 0, a forward step of +1). -/
def sWrap : State Unit := { s0 with enc_val_previous_left := 5, wheel_left_ticks := 8999 }

/-- Baseline state whose left motor fault code is nonzero. -/
def sErr : State Unit := { s0 with rtY_Left := { y0 with z_errCode := 1 } }

theorem tick_eq_calib {DW : Type} (step : DW → ExtU → DW × ExtY) (s : State DW) (i : TickIn)
    (h : s.offsetcount < 2000) : tick step s i = calibStep s i := by
  simp [tick, tickAux, h]

theorem tick_eq_overrun {DW : Type} (step : DW → ExtU → DW × ExtY) (s : State DW) (i : TickIn)
    (h1 : ¬ s.offsetcount < 2000) (h2 : s.overrunFlag = true) :
    tick step s i = housekeeping s i := by
  simp [tick, tickAux, h1, h2]

theorem tick_eq_full {DW : Type} (step : DW → ExtU → DW × ExtY) (s : State DW) (i : TickIn)
    (h1 : ¬ s.offsetcount < 2000) (h2 : s.overrunFlag = false) :
    tick step s i = motorSection step (housekeeping s i) i := by
  simp [tick, tickAux, h1, h2]

theorem trace_eq_calib {DW : Type} (step : DW → ExtU → DW × ExtY) (s : State DW) (i : TickIn)
    (h : s.offsetcount < 2000) : tickTrace step s i = [] := by
  simp [tickTrace, tickAux, h]

theorem trace_eq_overrun {DW : Type} (step : DW → ExtU → DW × ExtY) (s : State DW) (i : TickIn)
    (h1 : ¬ s.offsetcount < 2000) (h2 : s.overrunFlag = true) :
    tickTrace step s i =
      [Ev.interlock true (housekeeping s i).leftTim.moe,
       Ev.interlock false (housekeeping s i).rightTim.moe] := by
  simp [tickTrace, tickAux, h1, h2]

theorem trace_eq_full {DW : Type} (step : DW → ExtU → DW × ExtY) (s : State DW) (i : TickIn)
    (h1 : ¬ s.offsetcount < 2000) (h2 : s.overrunFlag = false) :
    tickTrace step s i =
      [Ev.interlock true (housekeeping s i).leftTim.moe,
       Ev.interlock false (housekeeping s i).rightTim.moe,
       Ev.ctrlStep true, Ev.dutyWrite true 0, Ev.dutyWrite true 1, Ev.dutyWrite true 2,
       Ev.ctrlStep false, Ev.dutyWrite false 0, Ev.dutyWrite false 1, Ev.dutyWrite false 2] := by
  simp [tickTrace, tickAux, h1, h2]

theorem toUInt16_id (x : Int) (h1 : 0 ≤ x) (h2 : x < 65536) : toUInt16 x = x := by
  unfold toUInt16
  exact Int.emod_eq_of_lt h1 h2

theorem toInt16_id (x : Int) (h1 : -32768 ≤ x) (h2 : x < 32768) : toInt16 x = x := by
  unfold toInt16
  show (x + 32768) % 65536 - 32768 = x
  rw [Int.emod_eq_of_lt (by omega) (by omega)]
  omega

theorem CLAMP_le_left (x lo hi : Int) (h : lo ≤ hi) : lo ≤ CLAMP x lo hi := by
  simp only [CLAMP, min_def, max_def]
  split_ifs <;> omega

theorem CLAMP_le_right (x lo hi : Int) (h : lo ≤ hi) : CLAMP x lo hi ≤ hi := by
  simp only [CLAMP, min_def, max_def]
  split_ifs <;> omega

theorem enc_vals_table_getD_bounds (n : Nat) :
    -2 ≤ enc_vals_table.getD n 0 ∧ enc_vals_table.getD n 0 ≤ 2 := by
  match n with
  | 0 => decide
  | 1 => decide
  | 2 => decide
  | 3 => decide
  | 4 => decide
  | 5 => decide
  | (k+6) => simp [enc_vals_table, List.getD]

theorem calc_encoder_ticks_bounds (p c : Nat) :
    -2 ≤ calc_encoder_ticks p c ∧ calc_encoder_ticks p c ≤ 2 := by
  unfold calc_encoder_ticks
  exact enc_vals_table_getD_bounds _

theorem tick_wheel_left_eq {DW : Type} (step : DW → ExtU → DW × ExtY) (s : State DW)
    (i : TickIn) (h1 : ¬ s.offsetcount < 2000) (h2 : s.overrunFlag = false) :
    (tick step s i).wheel_left_ticks =
      (clamp_module_max (toInt16 ((s.wheel_left_ticks : Int) +
        calc_encoder_ticks s.enc_val_previous_left
          (vec_hallToPos (hallCode i.hall_ul i.hall_vl i.hall_wl)))) 9000).toNat := by
  rw [tick_eq_full step s i h1 h2]
  rfl

theorem tick_wheel_right_eq {DW : Type} (step : DW → ExtU → DW × ExtY) (s : State DW)
    (i : TickIn) (h1 : ¬ s.offsetcount < 2000) (h2 : s.overrunFlag = false) :
    (tick step s i).wheel_right_ticks =
      (clamp_module_max (toInt16 ((s.wheel_right_ticks : Int) -
        calc_encoder_ticks s.enc_val_previous_right
          (vec_hallToPos (hallCode i.hall_ur i.hall_vr i.hall_wr)))) 9000).toNat := by
  rw [tick_eq_full step s i h1 h2]
  rfl

theorem tmod_neg_left (a b : Int) : (-a).tmod b = -(a.tmod b) := by
  rw [Int.tmod_def, Int.tmod_def, Int.neg_tdiv]
  ring

theorem tmod_gt_neg (v : Int) {m : Int} (hm : 0 < m) : -m < v.tmod m := by
  rcases le_or_lt 0 v with hv | hv
  · have h0 : 0 ≤ v.tmod m := Int.tmod_nonneg m hv
    omega
  · have h1 : (-v).tmod m < m := Int.tmod_lt_of_pos (-v) hm
    have h2 : (-v).tmod m = -(v.tmod m) := tmod_neg_left v m
    omega

theorem clamp_module_max_eq_emod (v : Int) {m : Int} (hm : 0 < m) :
    clamp_module_max v m = v.emod m := by
  unfold clamp_module_max
  have hlow : -m < v.tmod m := tmod_gt_neg v hm
  have hsum : 0 ≤ v.tmod m + m := by omega
  rw [Int.tmod_eq_emod hsum (le_of_lt hm), Int.add_emod_self]
  have hdef : v.tmod m = v + m * (-(v.tdiv m)) := by
    rw [Int.tmod_def]; ring
  rw [hdef, Int.add_mul_emod_self_left]
  rfl

theorem clamp_module_max_nonneg (v : Int) {m : Int} (hm : 0 < m) :
    0 ≤ clamp_module_max v m := by
  rw [clamp_module_max_eq_emod v hm]
  exact Int.emod_nonneg v (by omega)

theorem clamp_module_max_lt (v : Int) {m : Int} (hm : 0 < m) :
    clamp_module_max v m < m := by
  rw [clamp_module_max_eq_emod v hm]
  exact Int.emod_lt_of_pos v hm

theorem clamp9000_toNat_lt (x : Int) : (clamp_module_max x 9000).toNat < 9000 := by
  have g1 := clamp_module_max_nonneg x (show (0:Int) < 9000 by norm_num)
  have g2 := clamp_module_max_lt x (show (0:Int) < 9000 by norm_num)
  omega

theorem tick_wheel_lt {DW : Type} (step : DW → ExtU → DW × ExtY) (s : State DW) (i : TickIn)
    (hL : s.wheel_left_ticks < 9000) (hR : s.wheel_right_ticks < 9000) :
    (tick step s i).wheel_left_ticks < 9000 ∧ (tick step s i).wheel_right_ticks < 9000 := by
  by_cases hc : s.offsetcount < 2000
  · rw [tick_eq_calib step s i hc]
    exact ⟨hL, hR⟩
  · rcases Bool.eq_false_or_eq_true s.overrunFlag with ho | ho
    · rw [tick_eq_overrun step s i hc ho]
      exact ⟨hL, hR⟩
    · rw [tick_wheel_left_eq step s i hc ho, tick_wheel_right_eq step s i hc ho]
      exact ⟨clamp9000_toNat_lt _, clamp9000_toNat_lt _⟩

theorem run_wheel_lt {DW : Type} (step : DW → ExtU → DW × ExtY) (s : State DW) (l : List TickIn)
    (hL : s.wheel_left_ticks < 9000) (hR : s.wheel_right_ticks < 9000) :
    (run step s l).wheel_left_ticks < 9000 ∧ (run step s l).wheel_right_ticks < 9000 := by
  induction l generalizing s with
  | nil => exact ⟨hL, hR⟩
  | cons a l ih =>
    have h1 := tick_wheel_lt step s a hL hR
    exact ih (tick step s a) h1.1 h1.2

theorem tick_offsets_eq {DW : Type} (step : DW → ExtU → DW × ExtY) (s : State DW) (i : TickIn)
    (h : 2000 ≤ s.offsetcount) :
    (tick step s i).offsetrlA = s.offsetrlA ∧ (tick step s i).offsetrlB = s.offsetrlB ∧
    (tick step s i).offsetrrB = s.offsetrrB ∧ (tick step s i).offsetrrC = s.offsetrrC ∧
    (tick step s i).offsetdcl = s.offsetdcl ∧ (tick step s i).offsetdcr = s.offsetdcr ∧
    2000 ≤ (tick step s i).offsetcount := by
  have hc : ¬ s.offsetcount < 2000 := by omega
  rcases Bool.eq_false_or_eq_true s.overrunFlag with ho | ho
  · rw [tick_eq_overrun step s i hc ho]
    exact ⟨rfl, rfl, rfl, rfl, rfl, rfl, h⟩
  · rw [tick_eq_full step s i hc ho]
    exact ⟨rfl, rfl, rfl, rfl, rfl, rfl, h⟩

/-- C10: for every int16_t input value and positive uint16_t modulus,
the helper clamp_module_max computes the mathematical residue (the
value mod max, in the range 0 ≤ r < max), including for negative
inputs where C's truncating % alone would be negative. -/
theorem clamp_module_max_spec (v m : Int)
    (hv1 : -32768 ≤ v) (hv2 : v < 32768) (hm1 : 0 < m) (hm2 : m < 65536) :
    clamp_module_max v m = v.emod m ∧
    0 ≤ clamp_module_max v m ∧ clamp_module_max v m < m :=
  ⟨clamp_module_max_eq_emod v hm1, clamp_module_max_nonneg v hm1, clamp_module_max_lt v hm1⟩

/-- Witness for C10 at the concrete input value -5, modulus 9000. -/
theorem clamp_module_max_spec_witness :
    clamp_module_max (-5) 9000 = Int.emod (-5) 9000 ∧
    0 ≤ clamp_module_max (-5) 9000 ∧ clamp_module_max (-5) 9000 < 9000 :=
  clamp_module_max_spec (-5) 9000 (by decide) (by decide) (by decide) (by decide)

/-- C6: the hall decode tables are exactly the fixed reference tables:
the 8-entry position table maps raw codes 0..7 to 0,2,0,1,4,3,5,0 (all
canonical codes in 0..5, invalid raw codes 0 and 7 mapping to the
sentinel 0), and calc_encoder_ticks indexes the 6-entry delta table
0,-1,-2,0,2,1 at the mathematical residue (previous - current) mod 6. -/
theorem hall_tables_spec :
    (vec_hallToPos 0 = 0 ∧ vec_hallToPos 1 = 2 ∧ vec_hallToPos 2 = 0 ∧ vec_hallToPos 3 = 1 ∧
      vec_hallToPos 4 = 4 ∧ vec_hallToPos 5 = 3 ∧ vec_hallToPos 6 = 5 ∧ vec_hallToPos 7 = 0) ∧
    (∀ r : Nat, r < 8 → vec_hallToPos r ≤ 5) ∧
    enc_vals_table = [0, -1, -2, 0, 2, 1] ∧
    (∀ p c : Nat, p ≤ 5 → c ≤ 5 →
      calc_encoder_ticks p c = enc_vals_table.getD (((p : Int) - (c : Int)).emod 6).toNat 0) := by
  refine ⟨by decide, ?_, rfl, ?_⟩
  · intro r hr
    interval_cases r <;> decide
  · intro p c hp hc
    interval_cases p <;> interval_cases c <;> decide

/-- Witness for C6 at previous code 1, current code 0 (delta -1). -/
theorem hall_tables_spec_witness :
    calc_encoder_ticks 1 0 =
      enc_vals_table.getD ((((1 : Nat) : Int) - ((0 : Nat) : Int)).emod 6).toNat 0 :=
  hall_tables_spec.2.2.2 1 0 (by decide) (by decide)

/-- C8: once the calibration counter has reached 2000, the six ADC
offsets are never modified again over any sequence of further ticks,
regardless of the raw ADC samples supplied, and the counter stays at
or above the threshold (no recalibration path). -/
theorem calibration_freeze_spec {DW : Type} (step : DW → ExtU → DW × ExtY) (s : State DW)
    (l : List TickIn) (h : 2000 ≤ s.offsetcount) :
    (run step s l).offsetrlA = s.offsetrlA ∧ (run step s l).offsetrlB = s.offsetrlB ∧
    (run step s l).offsetrrB = s.offsetrrB ∧ (run step s l).offsetrrC = s.offsetrrC ∧
    (run step s l).offsetdcl = s.offsetdcl ∧ (run step s l).offsetdcr = s.offsetdcr ∧
    2000 ≤ (run step s l).offsetcount := by
  induction l generalizing s with
  | nil => exact ⟨rfl, rfl, rfl, rfl, rfl, rfl, h⟩
  | cons a l ih =>
    have h1 := tick_offsets_eq step s a h
    have h2 := ih (tick step s a) h1.2.2.2.2.2.2
    exact ⟨h2.1.trans h1.1, h2.2.1.trans h1.2.1, h2.2.2.1.trans h1.2.2.1,
      h2.2.2.2.1.trans h1.2.2.2.1, h2.2.2.2.2.1.trans h1.2.2.2.2.1,
      h2.2.2.2.2.2.1.trans h1.2.2.2.2.2.1, h2.2.2.2.2.2.2⟩

/-- Witness for C8 on the concrete post-calibration state s0 over two
ticks with differing noisy inputs. -/
theorem calibration_freeze_spec_witness :
    (run step0 s0 [in0, inEq]).offsetrlA = s0.offsetrlA ∧
    (run step0 s0 [in0, inEq]).offsetrlB = s0.offsetrlB ∧
    (run step0 s0 [in0, inEq]).offsetrrB = s0.offsetrrB ∧
    (run step0 s0 [in0, inEq]).offsetrrC = s0.offsetrrC ∧
    (run step0 s0 [in0, inEq]).offsetdcl = s0.offsetdcl ∧
    (run step0 s0 [in0, inEq]).offsetdcr = s0.offsetdcr ∧
    2000 ≤ (run step0 s0 [in0, inEq]).offsetcount :=
  calibration_freeze_spec step0 s0 [in0, inEq] (by decide)

/-- C4: the per-motor odometry counters always remain in [0, 9000):
starting below the modulus they stay below it over every sequence of
hall readings; each tick the signed transition delta lies in -2..2 and
is applied with opposite sign for the two motors (left adds, right
subtracts) and wrapped modulo 9000; in particular a counter at 8999
plus a forward step yields 0. -/
theorem odometry_wrap_spec :
    (∀ (DW : Type) (step : DW → ExtU → DW × ExtY) (s : State DW) (l : List TickIn),
      s.wheel_left_ticks < 9000 → s.wheel_right_ticks < 9000 →
      (run step s l).wheel_left_ticks < 9000 ∧ (run step s l).wheel_right_ticks < 9000) ∧
    (∀ p c : Nat, -2 ≤ calc_encoder_ticks p c ∧ calc_encoder_ticks p c ≤ 2) ∧
    (∀ (DW : Type) (step : DW → ExtU → DW × ExtY) (s : State DW) (i : TickIn),
      ¬ s.offsetcount < 2000 → s.overrunFlag = false →
      (tick step s i).wheel_left_ticks =
        (clamp_module_max (toInt16 ((s.wheel_left_ticks : Int) +
          calc_encoder_ticks s.enc_val_previous_left
            (vec_hallToPos (hallCode i.hall_ul i.hall_vl i.hall_wl)))) 9000).toNat ∧
      (tick step s i).wheel_right_ticks =
        (clamp_module_max (toInt16 ((s.wheel_right_ticks : Int) -
          calc_encoder_ticks s.enc_val_previous_right
            (vec_hallToPos (hallCode i.hall_ur i.hall_vr i.hall_wr)))) 9000).toNat) ∧
    (sWrap.wheel_left_ticks = 8999 ∧ (tick step0 sWrap in0).wheel_left_ticks = 0) := by
  refine ⟨?_, ?_, ?_, by decide, by decide⟩
  · intro DW step s l hL hR
    exact run_wheel_lt step s l hL hR
  · intro p c
    exact calc_encoder_ticks_bounds p c
  · intro DW step s i h1 h2
    exact ⟨tick_wheel_left_eq step s i h1 h2, tick_wheel_right_eq step s i h1 h2⟩

/-- Witness for C4 on the concrete state s0 over a two-tick input
sequence. -/
theorem odometry_wrap_spec_witness :
    (run step0 s0 [in0, inHall]).wheel_left_ticks < 9000 ∧
    (run step0 s0 [in0, inHall]).wheel_right_ticks < 9000 :=
  odometry_wrap_spec.1 Unit step0 s0 [in0, inHall] (by decide) (by decide)

theorem duty_write_val (x m : Int) (h0 : 0 ≤ m) (h1 : m ≤ 1000) :
    toUInt16 (CLAMP x m (pwm_res - m)) = CLAMP x m (pwm_res - m) ∧
    m ≤ toUInt16 (CLAMP x m (pwm_res - m)) ∧
    toUInt16 (CLAMP x m (pwm_res - m)) ≤ pwm_res - m := by
  have hpr : pwm_res = 2000 := rfl
  have hle : m ≤ pwm_res - m := by omega
  have hc1 := CLAMP_le_left x m (pwm_res - m) hle
  have hc2 := CLAMP_le_right x m (pwm_res - m) hle
  have hid := toUInt16_id (CLAMP x m (pwm_res - m)) (by omega) (by omega)
  exact ⟨hid, by omega, by omega⟩

/-- C3: on every tick that reaches actuation, each timer compare value
written is the controller's raw duty value re-centered by pwm_res/2
and clamped into the inclusive window [pwm_margin, pwm_res - pwm_margin],
where pwm_margin is 110 exactly when the FOC control type is selected
and 0 otherwise; every written value lies inside the window. -/
theorem duty_clamp_spec {DW : Type} (step : DW → ExtU → DW × ExtY) (s : State DW) (i : TickIn)
    (h1 : ¬ s.offsetcount < 2000) (h2 : s.overrunFlag = false) :
    (tick step s i).pwm_margin = (if s.z_ctrlTypSel = FOC_CTRL then (110 : Int) else 0) ∧
    (tick step s i).leftTim.cmpU =
      CLAMP ((step s.dwLeft ((tick step s i).rtU_Left)).2.DC_phaA + pwm_res.tdiv 2)
        ((tick step s i).pwm_margin) (pwm_res - (tick step s i).pwm_margin) ∧
    (tick step s i).leftTim.cmpV =
      CLAMP ((step s.dwLeft ((tick step s i).rtU_Left)).2.DC_phaB + pwm_res.tdiv 2)
        ((tick step s i).pwm_margin) (pwm_res - (tick step s i).pwm_margin) ∧
    (tick step s i).leftTim.cmpW =
      CLAMP ((step s.dwLeft ((tick step s i).rtU_Left)).2.DC_phaC + pwm_res.tdiv 2)
        ((tick step s i).pwm_margin) (pwm_res - (tick step s i).pwm_margin) ∧
    (tick step s i).rightTim.cmpU =
      CLAMP ((step s.dwRight ((tick step s i).rtU_Right)).2.DC_phaA + pwm_res.tdiv 2)
        ((tick step s i).pwm_margin) (pwm_res - (tick step s i).pwm_margin) ∧
    (tick step s i).rightTim.cmpV =
      CLAMP ((step s.dwRight ((tick step s i).rtU_Right)).2.DC_phaB + pwm_res.tdiv 2)
        ((tick step s i).pwm_margin) (pwm_res - (tick step s i).pwm_margin) ∧
    (tick step s i).rightTim.cmpW =
      CLAMP ((step s.dwRight ((tick step s i).rtU_Right)).2.DC_phaC + pwm_res.tdiv 2)
        ((tick step s i).pwm_margin) (pwm_res - (tick step s i).pwm_margin) ∧
    ((tick step s i).pwm_margin ≤ (tick step s i).leftTim.cmpU ∧
      (tick step s i).leftTim.cmpU ≤ pwm_res - (tick step s i).pwm_margin) ∧
    ((tick step s i).pwm_margin ≤ (tick step s i).leftTim.cmpV ∧
      (tick step s i).leftTim.cmpV ≤ pwm_res - (tick step s i).pwm_margin) ∧
    ((tick step s i).pwm_margin ≤ (tick step s i).leftTim.cmpW ∧
      (tick step s i).leftTim.cmpW ≤ pwm_res - (tick step s i).pwm_margin) ∧
    ((tick step s i).pwm_margin ≤ (tick step s i).rightTim.cmpU ∧
      (tick step s i).rightTim.cmpU ≤ pwm_res - (tick step s i).pwm_margin) ∧
    ((tick step s i).pwm_margin ≤ (tick step s i).rightTim.cmpV ∧
      (tick step s i).rightTim.cmpV ≤ pwm_res - (tick step s i).pwm_margin) ∧
    ((tick step s i).pwm_margin ≤ (tick step s i).rightTim.cmpW ∧
      (tick step s i).rightTim.cmpW ≤ pwm_res - (tick step s i).pwm_margin) := by
  rw [tick_eq_full step s i h1 h2]
  have hm : (motorSection step (housekeeping s i) i).pwm_margin =
      (if s.z_ctrlTypSel = FOC_CTRL then (110 : Int) else 0) := rfl
  have hm0 : 0 ≤ (motorSection step (housekeeping s i) i).pwm_margin := by
    rw [hm]; split_ifs <;> norm_num
  have hm1 : (motorSection step (housekeeping s i) i).pwm_margin ≤ 1000 := by
    rw [hm]; split_ifs <;> norm_num
  refine ⟨hm, ?_, ?_, ?_, ?_, ?_, ?_, ?_, ?_, ?_, ?_, ?_, ?_⟩
  · exact (duty_write_val _ _ hm0 hm1).1
  · exact (duty_write_val _ _ hm0 hm1).1
  · exact (duty_write_val _ _ hm0 hm1).1
  · exact (duty_write_val _ _ hm0 hm1).1
  · exact (duty_write_val _ _ hm0 hm1).1
  · exact (duty_write_val _ _ hm0 hm1).1
  · exact ⟨(duty_write_val _ _ hm0 hm1).2.1, (duty_write_val _ _ hm0 hm1).2.2⟩
  · exact ⟨(duty_write_val _ _ hm0 hm1).2.1, (duty_write_val _ _ hm0 hm1).2.2⟩
  · exact ⟨(duty_write_val _ _ hm0 hm1).2.1, (duty_write_val _ _ hm0 hm1).2.2⟩
  · exact ⟨(duty_write_val _ _ hm0 hm1).2.1, (duty_write_val _ _ hm0 hm1).2.2⟩
  · exact ⟨(duty_write_val _ _ hm0 hm1).2.1, (duty_write_val _ _ hm0 hm1).2.2⟩
  · exact ⟨(duty_write_val _ _ hm0 hm1).2.1, (duty_write_val _ _ hm0 hm1).2.2⟩

/-- Witness for C3 on the concrete state s0 (FOC mode, margin 110)
with the stand-in controller outputs 100, -50, 3000. -/
theorem duty_clamp_spec_witness :
    (tick step0 s0 in0).pwm_margin = (if s0.z_ctrlTypSel = FOC_CTRL then (110 : Int) else 0) ∧
    (tick step0 s0 in0).leftTim.cmpU =
      CLAMP ((step0 s0.dwLeft ((tick step0 s0 in0).rtU_Left)).2.DC_phaA + pwm_res.tdiv 2)
        ((tick step0 s0 in0).pwm_margin) (pwm_res - (tick step0 s0 in0).pwm_margin) ∧
    (tick step0 s0 in0).leftTim.cmpV =
      CLAMP ((step0 s0.dwLeft ((tick step0 s0 in0).rtU_Left)).2.DC_phaB + pwm_res.tdiv 2)
        ((tick step0 s0 in0).pwm_margin) (pwm_res - (tick step0 s0 in0).pwm_margin) ∧
    (tick step0 s0 in0).leftTim.cmpW =
      CLAMP ((step0 s0.dwLeft ((tick step0 s0 in0).rtU_Left)).2.DC_phaC + pwm_res.tdiv 2)
        ((tick step0 s0 in0).pwm_margin) (pwm_res - (tick step0 s0 in0).pwm_margin) ∧
    (tick step0 s0 in0).rightTim.cmpU =
      CLAMP ((step0 s0.dwRight ((tick step0 s0 in0).rtU_Right)).2.DC_phaA + pwm_res.tdiv 2)
        ((tick step0 s0 in0).pwm_margin) (pwm_res - (tick step0 s0 in0).pwm_margin) ∧
    (tick step0 s0 in0).rightTim.cmpV =
      CLAMP ((step0 s0.dwRight ((tick step0 s0 in0).rtU_Right)).2.DC_phaB + pwm_res.tdiv 2)
        ((tick step0 s0 in0).pwm_margin) (pwm_res - (tick step0 s0 in0).pwm_margin) ∧
    (tick step0 s0 in0).rightTim.cmpW =
      CLAMP ((step0 s0.dwRight ((tick step0 s0 in0).rtU_Right)).2.DC_phaC + pwm_res.tdiv 2)
        ((tick step0 s0 in0).pwm_margin) (pwm_res - (tick step0 s0 in0).pwm_margin) ∧
    (((tick step0 s0 in0).pwm_margin ≤ (tick step0 s0 in0).leftTim.cmpU ∧
      (tick step0 s0 in0).leftTim.cmpU ≤ pwm_res - (tick step0 s0 in0).pwm_margin)) ∧
    (((tick step0 s0 in0).pwm_margin ≤ (tick step0 s0 in0).leftTim.cmpV ∧
      (tick step0 s0 in0).leftTim.cmpV ≤ pwm_res - (tick step0 s0 in0).pwm_margin)) ∧
    (((tick step0 s0 in0).pwm_margin ≤ (tick step0 s0 in0).leftTim.cmpW ∧
      (tick step0 s0 in0).leftTim.cmpW ≤ pwm_res - (tick step0 s0 in0).pwm_margin)) ∧
    (((tick step0 s0 in0).pwm_margin ≤ (tick step0 s0 in0).rightTim.cmpU ∧
      (tick step0 s0 in0).rightTim.cmpU ≤ pwm_res - (tick step0 s0 in0).pwm_margin)) ∧
    (((tick step0 s0 in0).pwm_margin ≤ (tick step0 s0 in0).rightTim.cmpV ∧
      (tick step0 s0 in0).rightTim.cmpV ≤ pwm_res - (tick step0 s0 in0).pwm_margin)) ∧
    (((tick step0 s0 in0).pwm_margin ≤ (tick step0 s0 in0).rightTim.cmpW ∧
      (tick step0 s0 in0).rightTim.cmpW ≤ pwm_res - (tick step0 s0 in0).pwm_margin)) :=
  duty_clamp_spec step0 s0 in0 (by decide) (by decide)

/-- C7: in the event trace of every tick, every interlock (MOE) update
precedes every controller step and every duty compare write: a tick
that reaches actuation recomputed the interlock first. -/
theorem interlock_before_actuation {DW : Type} (step : DW → ExtU → DW × ExtY) (s : State DW)
    (i : TickIn) (j k : Nat) (hk : k < (tickTrace step s i).length)
    (ha : isActuationEv ((tickTrace step s i).getD j (Ev.interlock true true)) = true)
    (hb : isInterlockEv ((tickTrace step s i).getD k (Ev.interlock true true)) = true) :
    k < j := by
  by_cases hc : s.offsetcount < 2000
  · rw [trace_eq_calib step s i hc] at ha
    simp [isActuationEv, List.getD] at ha
  · rcases Bool.eq_false_or_eq_true s.overrunFlag with ho | ho
    · rw [trace_eq_overrun step s i hc ho] at ha
      rcases j with _ | _ | j <;> simp [isActuationEv, List.getD] at ha
    · rw [trace_eq_full step s i hc ho] at ha hb hk
      have hk10 : k < 10 := by simpa using hk
      rcases j with _ | _ | j
      · simp [isActuationEv, List.getD] at ha
      · simp [isActuationEv, List.getD] at ha
      · interval_cases k <;> simp_all [isInterlockEv, List.getD]

/-- Witness for C7: on the concrete state s0 the duty write at trace
position 2 is preceded by the interlock update at position 0. -/
theorem interlock_before_actuation_witness : 0 < 2 :=
  interlock_before_actuation step0 s0 in0 2 0 (by decide) (by decide) (by decide)

theorem emod_as_mod (a b : Int) : a.emod b = a % b := rfl

theorem gate_bool_iff (c mx : Int) (e : Nat) :
    ((!(decide (c > mx) || decide (e = 0))) = true) ↔ (e ≠ 0 ∧ c ≤ mx) := by
  simp only [Bool.not_eq_true', Bool.or_eq_false_iff, decide_eq_false_iff_not, not_lt]
  tauto

/-- C1 counterexample: with the left DC-link current measured exactly
at the configured limit (850 = curDC_max) and the enable flag set, the
code arms the left power stage even though the current magnitude is
not strictly below the limit, refuting the claimed strict-inequality
gate. -/
theorem interlock_strict_counterexample :
    (tick step0 s0 inEq).curL_DC = s0.curDC_max ∧
    s0.enable ≠ 0 ∧
    (tick step0 s0 inEq).leftTim.moe = true ∧
    ¬ (ABS ((tick step0 s0 inEq).curL_DC) < s0.curDC_max) := by decide

/-- C1 (amended): for every tick after calibration and each motor
independently, the power stage is armed iff the global enable flag is
nonzero AND the magnitude of that motor's most recent DC-link current
is at most curDC_max (the code disarms only when strictly greater);
the gate and the current are recomputed every tick from only
current-tick values (offset minus this tick's raw sample), with no
memory of prior ticks. -/
theorem interlock_gate_spec {DW : Type} (step : DW → ExtU → DW × ExtY) (s : State DW)
    (i : TickIn) (h1 : ¬ s.offsetcount < 2000) :
    ((tick step s i).leftTim.moe = true ↔
      (s.enable ≠ 0 ∧ ABS ((tick step s i).curL_DC) ≤ s.curDC_max)) ∧
    ((tick step s i).rightTim.moe = true ↔
      (s.enable ≠ 0 ∧ ABS ((tick step s i).curR_DC) ≤ s.curDC_max)) ∧
    (tick step s i).curL_DC = toInt16 (s.offsetdcl - i.adc.dcl) ∧
    (tick step s i).curR_DC = toInt16 (s.offsetdcr - i.adc.dcr) := by
  rcases Bool.eq_false_or_eq_true s.overrunFlag with ho | ho
  · rw [tick_eq_overrun step s i h1 ho]
    exact ⟨gate_bool_iff (ABS (toInt16 (s.offsetdcl - i.adc.dcl))) s.curDC_max s.enable,
      gate_bool_iff (ABS (toInt16 (s.offsetdcr - i.adc.dcr))) s.curDC_max s.enable, rfl, rfl⟩
  · rw [tick_eq_full step s i h1 ho]
    exact ⟨gate_bool_iff (ABS (toInt16 (s.offsetdcl - i.adc.dcl))) s.curDC_max s.enable,
      gate_bool_iff (ABS (toInt16 (s.offsetdcr - i.adc.dcr))) s.curDC_max s.enable, rfl, rfl⟩

/-- Witness for C1 (amended) on the concrete state s0. -/
theorem interlock_gate_spec_witness :
    ((tick step0 s0 in0).leftTim.moe = true ↔
      (s0.enable ≠ 0 ∧ ABS ((tick step0 s0 in0).curL_DC) ≤ s0.curDC_max)) ∧
    ((tick step0 s0 in0).rightTim.moe = true ↔
      (s0.enable ≠ 0 ∧ ABS ((tick step0 s0 in0).curR_DC) ≤ s0.curDC_max)) ∧
    (tick step0 s0 in0).curL_DC = toInt16 (s0.offsetdcl - in0.adc.dcl) ∧
    (tick step0 s0 in0).curR_DC = toInt16 (s0.offsetdcr - in0.adc.dcr) :=
  interlock_gate_spec step0 s0 in0 (by decide)

/-- C2 counterexample: entering a post-calibration tick with the
overrun flag already set, observable state still changes: the buzzer
timer increments and the measured left DC-link current is recomputed,
refuting the claim that no observable state is mutated. -/
theorem overrun_mutation_counterexample :
    sOv.overrunFlag = true ∧
    (tick step0 sOv inEq).buzzerTimer ≠ sOv.buzzerTimer ∧
    (tick step0 sOv inEq).curL_DC ≠ sOv.curL_DC := by decide

/-- C2 (amended): if the overrun flag is already set when a tick
begins, the motor-control section is skipped: the odometry tick
counters, the previous hall codes, the duty compare registers, the
enableFin decision, the controller input/output records and the
controller internal state are all unchanged, and the flag stays set.
(The pre-check part of the handler - currents, battery filter,
interlock bits, buzzer, pwm_margin - still executes.) -/
theorem overrun_skip_spec {DW : Type} (step : DW → ExtU → DW × ExtY) (s : State DW)
    (i : TickIn) (h : s.overrunFlag = true) :
    (tick step s i).wheel_left_ticks = s.wheel_left_ticks ∧
    (tick step s i).wheel_right_ticks = s.wheel_right_ticks ∧
    (tick step s i).enc_val_previous_left = s.enc_val_previous_left ∧
    (tick step s i).enc_val_previous_right = s.enc_val_previous_right ∧
    (tick step s i).leftTim.cmpU = s.leftTim.cmpU ∧
    (tick step s i).leftTim.cmpV = s.leftTim.cmpV ∧
    (tick step s i).leftTim.cmpW = s.leftTim.cmpW ∧
    (tick step s i).rightTim.cmpU = s.rightTim.cmpU ∧
    (tick step s i).rightTim.cmpV = s.rightTim.cmpV ∧
    (tick step s i).rightTim.cmpW = s.rightTim.cmpW ∧
    (tick step s i).enableFin = s.enableFin ∧
    (tick step s i).rtU_Left = s.rtU_Left ∧
    (tick step s i).rtU_Right = s.rtU_Right ∧
    (tick step s i).rtY_Left = s.rtY_Left ∧
    (tick step s i).rtY_Right = s.rtY_Right ∧
    (tick step s i).dwLeft = s.dwLeft ∧
    (tick step s i).dwRight = s.dwRight ∧
    (tick step s i).overrunFlag = true := by
  by_cases hc : s.offsetcount < 2000
  · rw [tick_eq_calib step s i hc]
    exact ⟨rfl, rfl, rfl, rfl, rfl, rfl, rfl, rfl, rfl, rfl, rfl, rfl, rfl, rfl, rfl,
      rfl, rfl, h⟩
  · rw [tick_eq_overrun step s i hc h]
    exact ⟨rfl, rfl, rfl, rfl, rfl, rfl, rfl, rfl, rfl, rfl, rfl, rfl, rfl, rfl, rfl,
      rfl, rfl, h⟩

/-- Witness for C2 (amended) on the concrete overrun state sOv. -/
theorem overrun_skip_spec_witness :
    (tick step0 sOv in0).wheel_left_ticks = sOv.wheel_left_ticks ∧
    (tick step0 sOv in0).wheel_right_ticks = sOv.wheel_right_ticks ∧
    (tick step0 sOv in0).enc_val_previous_left = sOv.enc_val_previous_left ∧
    (tick step0 sOv in0).enc_val_previous_right = sOv.enc_val_previous_right ∧
    (tick step0 sOv in0).leftTim.cmpU = sOv.leftTim.cmpU ∧
    (tick step0 sOv in0).leftTim.cmpV = sOv.leftTim.cmpV ∧
    (tick step0 sOv in0).leftTim.cmpW = sOv.leftTim.cmpW ∧
    (tick step0 sOv in0).rightTim.cmpU = sOv.rightTim.cmpU ∧
    (tick step0 sOv in0).rightTim.cmpV = sOv.rightTim.cmpV ∧
    (tick step0 sOv in0).rightTim.cmpW = sOv.rightTim.cmpW ∧
    (tick step0 sOv in0).enableFin = sOv.enableFin ∧
    (tick step0 sOv in0).rtU_Left = sOv.rtU_Left ∧
    (tick step0 sOv in0).rtU_Right = sOv.rtU_Right ∧
    (tick step0 sOv in0).rtY_Left = sOv.rtY_Left ∧
    (tick step0 sOv in0).rtY_Right = sOv.rtY_Right ∧
    (tick step0 sOv in0).dwLeft = sOv.dwLeft ∧
    (tick step0 sOv in0).dwRight = sOv.dwRight ∧
    (tick step0 sOv in0).overrunFlag = true :=
  overrun_skip_spec step0 sOv in0 rfl

/-- C5 counterexample: with previous canonical code 1, a tick whose
raw left hall code is the invalid value 7 changes the odometry
counter (by the table delta -1), refuting the claim that an invalid
code is always decoded as a zero-movement transition. -/
theorem invalid_hall_counterexample :
    hallCode inHall.hall_ul inHall.hall_vl inHall.hall_wl = 7 ∧
    sHall.enc_val_previous_left = 1 ∧
    (tick step0 sHall inHall).wheel_left_ticks ≠ sHall.wheel_left_ticks := by decide

/-- C5 (amended): an invalid raw hall code (0 or 7) is mapped to the
sentinel canonical code 0 and then processed as an ordinary transition
to position 0: the odometry counter is unchanged on that tick iff the
previous canonical code is 0 or 3 (the two table indices with delta
0); in every case the tick completes normally and no error is
surfaced. -/
theorem invalid_hall_spec {DW : Type} (step : DW → ExtU → DW × ExtY) (s : State DW)
    (i : TickIn) (h1 : ¬ s.offsetcount < 2000) (h2 : s.overrunFlag = false)
    (h3 : hallCode i.hall_ul i.hall_vl i.hall_wl = 0 ∨
      hallCode i.hall_ul i.hall_vl i.hall_wl = 7)
    (h4 : s.enc_val_previous_left ≤ 5) (h5 : s.wheel_left_ticks < 9000) :
    (tick step s i).enc_val_previous_left = 0 ∧
    ((tick step s i).wheel_left_ticks = s.wheel_left_ticks ↔
      (s.enc_val_previous_left = 0 ∨ s.enc_val_previous_left = 3)) := by
  have henc : vec_hallToPos (hallCode i.hall_ul i.hall_vl i.hall_wl) = 0 := by
    rcases h3 with h3 | h3 <;> rw [h3] <;> rfl
  have hgen : ∀ p w : Nat, p ≤ 5 → w < 9000 →
      ((clamp_module_max (toInt16 ((w : Int) + calc_encoder_ticks p 0)) 9000).toNat = w ↔
        (p = 0 ∨ p = 3)) := by
    intro p w hp hw
    interval_cases p
    · simp only [show calc_encoder_ticks 0 0 = 0 from by decide]
      rw [toInt16_id ((w : Int) + 0) (by omega) (by omega),
        clamp_module_max_eq_emod _ (show (0 : Int) < 9000 by norm_num), emod_as_mod]
      simp only [true_or, or_true, iff_true]
      omega
    · simp only [show calc_encoder_ticks 1 0 = -1 from by decide]
      rw [toInt16_id ((w : Int) + -1) (by omega) (by omega),
        clamp_module_max_eq_emod _ (show (0 : Int) < 9000 by norm_num), emod_as_mod]
      omega
    · simp only [show calc_encoder_ticks 2 0 = -2 from by decide]
      rw [toInt16_id ((w : Int) + -2) (by omega) (by omega),
        clamp_module_max_eq_emod _ (show (0 : Int) < 9000 by norm_num), emod_as_mod]
      omega
    · simp only [show calc_encoder_ticks 3 0 = 0 from by decide]
      rw [toInt16_id ((w : Int) + 0) (by omega) (by omega),
        clamp_module_max_eq_emod _ (show (0 : Int) < 9000 by norm_num), emod_as_mod]
      simp only [true_or, or_true, iff_true]
      omega
    · simp only [show calc_encoder_ticks 4 0 = 2 from by decide]
      rw [toInt16_id ((w : Int) + 2) (by omega) (by omega),
        clamp_module_max_eq_emod _ (show (0 : Int) < 9000 by norm_num), emod_as_mod]
      omega
    · simp only [show calc_encoder_ticks 5 0 = 1 from by decide]
      rw [toInt16_id ((w : Int) + 1) (by omega) (by omega),
        clamp_module_max_eq_emod _ (show (0 : Int) < 9000 by norm_num), emod_as_mod]
      omega
  constructor
  · rw [tick_eq_full step s i h1 h2]
    exact henc
  · rw [tick_wheel_left_eq step s i h1 h2, henc]
    exact hgen s.enc_val_previous_left s.wheel_left_ticks h4 h5

/-- Witness for C5 (amended) on the concrete state s0 (previous
canonical code 0) with the invalid raw hall code 7. -/
theorem invalid_hall_spec_witness :
    (tick step0 s0 inHall).enc_val_previous_left = 0 ∧
    ((tick step0 s0 inHall).wheel_left_ticks = s0.wheel_left_ticks ↔
      (s0.enc_val_previous_left = 0 ∨ s0.enc_val_previous_left = 3)) :=
  invalid_hall_spec step0 s0 inHall (by decide) (by decide) (Or.inr (by decide))
    (by decide) (by decide)

/-- C9 counterexample: two states identical except for the left
motor's stored fault code (0 vs 1), with the same enable flag, yield
different motor-enable decisions fed to the algorithm, refuting the
claim that the decision depends only on the global enable flag. -/
theorem fault_independence_counterexample :
    s0.enable = sErr.enable ∧
    sErr.rtY_Left.z_errCode ≠ 0 ∧
    (tick step0 s0 in0).rtU_Left.b_motEna = true ∧
    (tick step0 sErr in0).rtU_Left.b_motEna = false := by decide

/-- C9 (amended): the core passes each motor's fault code through
unmodified (the stored output record is exactly the algorithm's
output), but it composes the fault codes into the enable decision
itself: the b_motEna fed to both motors on a tick equals (enable ≠ 0
AND both motors' previous fault codes are zero). -/
theorem fault_compose_spec {DW : Type} (step : DW → ExtU → DW × ExtY) (s : State DW)
    (i : TickIn) (h1 : ¬ s.offsetcount < 2000) (h2 : s.overrunFlag = false) :
    ((tick step s i).rtU_Left.b_motEna = true ↔
      (s.enable ≠ 0 ∧ s.rtY_Left.z_errCode = 0 ∧ s.rtY_Right.z_errCode = 0)) ∧
    (tick step s i).rtU_Right.b_motEna = (tick step s i).rtU_Left.b_motEna ∧
    (tick step s i).rtY_Left = (step s.dwLeft ((tick step s i).rtU_Left)).2 ∧
    (tick step s i).rtY_Right = (step s.dwRight ((tick step s i).rtU_Right)).2 := by
  rw [tick_eq_full step s i h1 h2]
  refine ⟨?_, rfl, rfl, rfl⟩
  show ((decide (s.enable ≠ 0) && decide (s.rtY_Left.z_errCode = 0) &&
    decide (s.rtY_Right.z_errCode = 0)) = true) ↔ _
  simp [Bool.and_eq_true, decide_eq_true_eq, and_assoc]

/-- Witness for C9 (amended) on the concrete state s0. -/
theorem fault_compose_spec_witness :
    ((tick step0 s0 in0).rtU_Left.b_motEna = true ↔
      (s0.enable ≠ 0 ∧ s0.rtY_Left.z_errCode = 0 ∧ s0.rtY_Right.z_errCode = 0)) ∧
    (tick step0 s0 in0).rtU_Right.b_motEna = (tick step0 s0 in0).rtU_Left.b_motEna ∧
    (tick step0 s0 in0).rtY_Left = (step0 s0.dwLeft ((tick step0 s0 in0).rtU_Left)).2 ∧
    (tick step0 s0 in0).rtY_Right = (step0 s0.dwRight ((tick step0 s0 in0).rtU_Right)).2 :=
  fault_compose_spec step0 s0 in0 (by decide) (by decide)

end Bldc
